import Mathlib

/-!
Verification of the cash-school backend core (authentication tokens,
credential checking, login, user administration and audit recording)
against its natural-language specification.

The Python sources under `backend/app` are shallowly embedded here:
pure helpers become Lean functions, the database session becomes an
explicit `Db` value threaded through each endpoint function, raised
`HTTPException`s become an `Outcome`/`Except` error value, and the
behaviour of the external libraries actually used by the code
(`python-jose` for JWTs, `passlib` for bcrypt digests) is modelled at
the granularity the code exercises.
-/

namespace CashSchool

/-- JSON-style claim values stored in a JWT payload or an audit snapshot.
All values the backend ever places in a payload are strings, integers or
booleans, so `num` carries an `Int`. -/
inductive JVal where
  | str (s : String)
  | num (n : Int)
  | bool (b : Bool)
deriving Repr, DecidableEq

/-- A Python `dict` of claims, modelled as an association list read through
`List.lookup` (first binding wins); `dictSet` keeps keys unique. -/
abbrev Payload := List (String × JVal)

/-- Assignment `d[k] = v` on a Python dict: replace any existing binding of `k`. -/
def dictSet (k : String) (v : JVal) (p : Payload) : Payload :=
  (k, v) :: p.filter (fun kv => kv.1 != k)

/-- Python `int(...)` applied to a decoded JSON value: numeric strings parse
(after stripping surrounding whitespace, with an optional sign), other
strings raise `ValueError`; ints are returned unchanged; bools coerce to
0/1. Used both by jose claim validation and by `get_current_user`. -/
def pyIntOfString (s : String) : Option Int :=
  let t :=
    ((s.data.dropWhile Char.isWhitespace).reverse.dropWhile
      Char.isWhitespace).reverse
  let (sign, digits) : Int × List Char :=
    match t with
    | '-' :: cs => (-1, cs)
    | '+' :: cs => (1, cs)
    | cs => (1, cs)
  if digits ≠ [] ∧ digits.all Char.isDigit then
    some (sign * (digits.foldl (fun a c => 10 * a + (c.toNat - 48)) 0 : Nat))
  else
    none

/-- Python `int(...)` on a claim value, as an `Except` carrying the raised
exception name. -/
def pyInt : JVal → Except String Int
  | .str s =>
      match pyIntOfString s with
      | some n => .ok n
      | none => .error "ValueError"
  | .num n => .ok n
  | .bool b => .ok (if b then 1 else 0)

/-! ## Configuration (`app/core/config.py`, default values) -/

def SECRET_KEY : String := "your-super-secret-key-change-this-in-production"

def ALGORITHM : String := "HS256"

def ACCESS_TOKEN_EXPIRE_MINUTES : Int := 30

def REFRESH_TOKEN_EXPIRE_DAYS : Int := 7

/-! ## JWTs (`python-jose`)

A signed token is modelled as its payload together with the key and
algorithm it was signed with; `jwt_decode` checks the signature by
comparing them, then runs jose's default claim validations
(`verify_iat`/`nbf`/`exp`/`aud`/`sub`/`jti`/`at_hash`, with
`audience = issuer = subject = access_token = None`, leeway 0).
Timestamps are seconds since the epoch as `Int`. -/

structure Jwt where
  payload : Payload
  secret : String
  alg : String
deriving Repr, DecidableEq

def jwt_encode (payload : Payload) (key : String) (alg : String) : Jwt :=
  ⟨payload, key, alg⟩

/-- jose `_validate_iat`: if present, `iat` must coerce through `int(...)`. -/
def validate_iat (p : Payload) : Bool :=
  match p.lookup "iat" with
  | none => true
  | some v => (pyInt v).toBool

/-- jose `_validate_nbf`: if present, `nbf` must be numeric and not in the
future (`nbf > now` is rejected). -/
def validate_nbf (p : Payload) (now : Int) : Bool :=
  match p.lookup "nbf" with
  | none => true
  | some v =>
      match pyInt v with
      | .error _ => false
      | .ok nbf => !(now < nbf)

/-- jose `_validate_exp`: if present, `exp` must be numeric and the token is
expired exactly when `exp < now` (leeway 0, so no grace window). -/
def validate_exp (p : Payload) (now : Int) : Bool :=
  match p.lookup "exp" with
  | none => true
  | some v =>
      match pyInt v with
      | .error _ => false
      | .ok e => !(e < now)

/-- jose `_validate_aud` with `audience=None`: decode is never given an
audience, so a token carrying any `aud` claim is rejected. -/
def validate_aud (p : Payload) : Bool :=
  (p.lookup "aud").isNone

/-- jose `_validate_sub`: `sub`, when present, must be a string. -/
def validate_sub (p : Payload) : Bool :=
  match p.lookup "sub" with
  | none => true
  | some (.str _) => true
  | some _ => false

/-- jose `_validate_jti`: `jti`, when present, must be a string. -/
def validate_jti (p : Payload) : Bool :=
  match p.lookup "jti" with
  | none => true
  | some (.str _) => true
  | some _ => false

/-- jose `_validate_at_hash` with `access_token=None`: a present `at_hash`
claim cannot be checked and is rejected. -/
def validate_at_hash (p : Payload) : Bool :=
  (p.lookup "at_hash").isNone

def claimsValid (p : Payload) (now : Int) : Bool :=
  validate_iat p && validate_nbf p now && validate_exp p now &&
    validate_aud p && validate_sub p && validate_jti p && validate_at_hash p

/-- jose `jwt.decode(token, key, algorithms=...)` at time `now`: signature
and algorithm must match, then all default claim validations must pass;
any failure raises a `JWTError`, modelled as `none`. -/
def jwt_decode (tok : Jwt) (key : String) (algorithms : List String)
    (now : Int) : Option Payload :=
  if tok.secret == key && algorithms.contains tok.alg &&
      claimsValid tok.payload now then
    some tok.payload
  else
    none

/-! ## `app/core/security.py`: token issuing and verification -/

/-- Function `create_access_token(data, expires_delta)`: copy the caller's dict, set
`exp` (now + delta, default 30 minutes) and `type = "access"` — overriding
any caller-supplied values — and sign with the process secret.
`expires_delta` is in seconds. -/
def create_access_token (data : Payload) (now : Int)
    (expires_delta : Option Int) : Jwt :=
  let expire :=
    match expires_delta with
    | some d => now + d
    | none => now + 60 * ACCESS_TOKEN_EXPIRE_MINUTES
  let to_encode := dictSet "type" (.str "access") (dictSet "exp" (.num expire) data)
  jwt_encode to_encode SECRET_KEY ALGORITHM

/-- Function `create_refresh_token(data)`: same shape with `type = "refresh"` and a
7-day expiry. -/
def create_refresh_token (data : Payload) (now : Int) : Jwt :=
  let expire := now + 86400 * REFRESH_TOKEN_EXPIRE_DAYS
  let to_encode := dictSet "type" (.str "refresh") (dictSet "exp" (.num expire) data)
  jwt_encode to_encode SECRET_KEY ALGORITHM

/-- Function `verify_token(token, token_type)`: decode (returning `None` on any
`JWTError`), then return `None` unless the embedded `type` claim equals
the expected type. -/
def verify_token (tok : Jwt) (token_type : String) (now : Int) : Option Payload :=
  match jwt_decode tok SECRET_KEY [ALGORITHM] now with
  | none => none
  | some payload =>
      if payload.lookup "type" == some (.str token_type) then some payload
      else none

/-! ## `app/core/security.py`: password hashing (`passlib`, bcrypt scheme)

`pwd_context = CryptContext(schemes=["bcrypt"])`. passlib's `verify` first
identifies the digest's scheme from its format; a digest it cannot
identify makes it raise `UnknownHashError` (it does not return `False`).
The bcrypt comparison itself is cryptographic and is abstracted as a
function argument `bcryptEq`. -/

/-- Whether `s` begins with `pre` (structural form of `str.startswith`). -/
def strBeginsWith (pre s : String) : Bool :=
  s.data.take pre.data.length == pre.data

/-- passlib's scheme identification for bcrypt: the digest must carry one
of the recognised bcrypt prefixes. -/
def bcryptIdentify (digest : String) : Bool :=
  strBeginsWith "$2b$" digest || strBeginsWith "$2a$" digest ||
    strBeginsWith "$2y$" digest || strBeginsWith "$2x$" digest ||
    strBeginsWith "$2$" digest

/-- Function `verify_password(plain_password, hashed_password)`: delegates straight
to `pwd_context.verify`, so an unidentifiable digest propagates
passlib's `UnknownHashError` to the caller. -/
def verify_password (bcryptEq : String → String → Bool)
    (plain_password hashed_password : String) : Except String Bool :=
  if bcryptIdentify hashed_password then
    .ok (bcryptEq plain_password hashed_password)
  else
    .error "UnknownHashError"

/-! ## `app/schemas/schemas.py`: password policy of `UserCreate` -/

/-- The `validate_password` field validator of `UserCreate`
(also used verbatim for `PasswordChangeRequest.new_password`):
at least 8 characters and at least one uppercase letter, one lowercase
letter and one digit, checked in that order. Character classes model the
ASCII behaviour of Python's `str.isupper`/`islower`/`isdigit`. -/
def validate_password (v : String) : Except String String :=
  if v.length < 8 then .error "Password must be at least 8 characters long"
  else if !(v.data.any Char.isUpper) then
    .error "Password must contain at least one uppercase letter"
  else if !(v.data.any Char.isLower) then
    .error "Password must contain at least one lowercase letter"
  else if !(v.data.any Char.isDigit) then
    .error "Password must contain at least one digit"
  else .ok v

/-- Whether `UserCreate` accepts a password: pydantic first enforces the
declared `Field(..., min_length=8, max_length=100)` bounds, then runs the
`validate_password` validator. -/
def userCreatePasswordAccepted (v : String) : Bool :=
  8 ≤ v.length && v.length ≤ 100 && (validate_password v).toBool

/-! ## Data model (`app/models/models.py`) and database state

`User.role` and `AuditLog.action_type` are plain `String` columns (not
`Enum` columns), so values loaded from the database are ordinary strings.
Timestamps are seconds since the epoch. The session is modelled as the
list of rows of each table together with the next autoincrement ids; a
commit is the corresponding pure update of this state. -/

structure UserRec where
  id : Nat
  username : String
  email : String
  password_hash : String
  full_name : String
  role : String
  is_active : Bool
  created_at : Int
  updated_at : Int
deriving Repr, DecidableEq

structure AuditRec where
  id : Nat
  user_id : Nat
  action_type : String
  table_name : String
  record_id : Option Nat
  old_values : Option Payload
  new_values : Option Payload
  ip_address : Option String
  user_agent : Option String
  created_at : Int
deriving Repr, DecidableEq

structure Db where
  users : List UserRec
  audits : List AuditRec
  nextUserId : Nat
  nextAuditId : Nat
deriving Repr, DecidableEq

/-- Method `AuditService.log_action` and function `log_audit` (`app/services/audit_service.py`):
construct an `AuditLog` row, add it and commit (a second, independent
commit after the business mutation's own commit). -/
def log_action (db : Db) (user_id : Nat) (action_type : String)
    (table_name : String) (record_id : Option Nat)
    (old_values new_values : Option Payload)
    (ip_address user_agent : Option String) (now : Int) : AuditRec × Db :=
  let a : AuditRec :=
    ⟨db.nextAuditId, user_id, action_type, table_name, record_id,
      old_values, new_values, ip_address, user_agent, now⟩
  (a, { db with audits := db.audits ++ [a], nextAuditId := db.nextAuditId + 1 })

/-- The result of one request: a value, a raised `HTTPException`
(status code and detail), or an exception that escapes the handler
(FastAPI turns it into a 500 with no detail of the route's choosing). -/
inductive Outcome (α : Type) where
  | ok (a : α)
  | httpErr (status : Nat) (detail : String)
  | unhandled (exc : String)
deriving Repr, DecidableEq

def Outcome.isOk {α : Type} : Outcome α → Bool
  | .ok _ => true
  | _ => false

/-! ## `app/routers/auth.py`: login -/

structure LoginRequest where
  username : String
  password : String
deriving Repr, DecidableEq

structure LoginResponse where
  access_token : Jwt
  refresh_token : Jwt
  token_type : String
  expires_in : Nat
  user : UserRec
deriving Repr, DecidableEq

/-- The `login` endpoint: look the user up by username; on a missing or
inactive user, or a failed password check, raise the one generic 401;
otherwise issue both tokens, write the LOGIN audit row and return the
response. An `UnknownHashError` escaping `verify_password` (malformed
stored digest) is unhandled. -/
def login (bcryptEq : String → String → Bool) (db : Db) (req : LoginRequest)
    (now : Int) (ip ua : Option String) : Outcome LoginResponse × Db :=
  match db.users.find? (fun u => u.username == req.username) with
  | none => (.httpErr 401 "Incorrect username or password", db)
  | some user =>
      if !user.is_active then (.httpErr 401 "Incorrect username or password", db)
      else
        match verify_password bcryptEq req.password user.password_hash with
        | .error exc => (.unhandled exc, db)
        | .ok false => (.httpErr 401 "Incorrect username or password", db)
        | .ok true =>
            let data : Payload :=
              [("sub", .str (toString user.id)), ("username", .str user.username)]
            let access_token := create_access_token data now none
            let refresh_token := create_refresh_token data now
            let (_, db1) :=
              log_action db user.id "LOGIN" "users" (some user.id)
                none none ip ua now
            (.ok ⟨access_token, refresh_token, "bearer", 30 * 60, user⟩, db1)

/-! ## `app/routers/users.py`: admin user management

`get_admin_user` (role gate) is inlined as the first check of each
endpoint. The audit payload of these endpoints reads `user.role.value`,
but `role` is a plain `String` column, so after the row is (re)loaded
from the database the attribute is an ordinary `str` and `.value` raises
`AttributeError`; the broad `except Exception` handler turns that into a
500 response. -/

structure UserCreateData where
  username : String
  email : String
  full_name : String
  role : String
  is_active : Bool
  password : String
deriving Repr, DecidableEq

/-- Endpoint `create_user`: role gate, duplicate username/email check, then insert
and commit the new user. Building the audit row's `new_values` evaluates
`new_user.role.value` on the refreshed (plain string) attribute, so the
endpoint raises `AttributeError` after the insert has been committed:
the handler rolls back (a no-op for the committed insert), returns a 500,
and no audit row is written. -/
def create_user (hashFn : String → String) (db : Db) (caller : UserRec)
    (data : UserCreateData) (now : Int) : Outcome UserRec × Db :=
  if caller.role != "admin" then (.httpErr 403 "Admin access required", db)
  else
    match db.users.find?
        (fun u => u.username == data.username || u.email == data.email) with
    | some existing =>
        if existing.username == data.username then
          (.httpErr 400 "Username already exists", db)
        else (.httpErr 400 "Email already exists", db)
    | none =>
        let new_user : UserRec :=
          ⟨db.nextUserId, data.username, data.email, hashFn data.password,
            data.full_name, data.role, data.is_active, now, now⟩
        let db1 :=
          { db with users := db.users ++ [new_user],
                    nextUserId := db.nextUserId + 1 }
        (.httpErr 500
          "Error creating user: AttributeError: str object has no attribute value",
          db1)

/-- Endpoint `delete_user`: role gate, then the self-deletion guard (400), then the
404 check; past those, building `old_values` evaluates `user.role.value`
on a plain string before anything is committed, so the endpoint raises
`AttributeError`, rolls back and returns a 500 with the user unchanged. -/
def delete_user (db : Db) (caller : UserRec) (user_id : Nat)
    : Outcome String × Db :=
  if caller.role != "admin" then (.httpErr 403 "Admin access required", db)
  else if user_id == caller.id then
    (.httpErr 400 "Cannot delete your own account", db)
  else
    match db.users.find? (fun u => u.id == user_id) with
    | none => (.httpErr 404 "User not found", db)
    | some _ =>
        (.httpErr 500
          "Error deleting user: AttributeError: str object has no attribute value",
          db)

/-! ## The two `get_current_user` dependencies -/

/-- The body of `app/core/security.py:get_current_user` before its
`except Exception` handler: verify the token, read and convert `sub`
(the `int(...)` conversion has its own `except (ValueError, TypeError)`),
load the user, and reject a missing or inactive user. -/
def security_get_current_user_body (tok : Jwt) (db : Db) (now : Int)
    : Outcome UserRec :=
  match verify_token tok "access" now with
  | none => .httpErr 401 "Could not validate credentials"
  | some payload =>
      match payload.lookup "sub" with
      | none => .httpErr 401 "Could not validate credentials"
      | some v =>
          match pyInt v with
          | .error _ => .httpErr 401 "Could not validate credentials"
          | .ok uid =>
              match db.users.find? (fun u => (u.id : Int) == uid) with
              | none => .httpErr 401 "Could not validate credentials"
              | some user =>
                  if !user.is_active then .httpErr 401 "Inactive user"
                  else .ok user

/-- Dependency `app/core/security.py:get_current_user` (used by the transactions
router): the whole body runs inside `try: ... except Exception:`, so every
failure — including the dedicated `Inactive user` exception raised inside
the `try` — is replaced by the one `Could not validate credentials` 401. -/
def security_get_current_user (tok : Jwt) (db : Db) (now : Int)
    : Outcome UserRec :=
  match security_get_current_user_body tok db now with
  | .ok user => .ok user
  | _ => .httpErr 401 "Could not validate credentials"

/-- Dependency `app/routers/auth.py:get_current_user` (used by the auth and users
routers): same checks but with distinct 401 details and no surrounding
handler, so `int(user_id)` on a non-numeric `sub` raises an unhandled
`ValueError`. -/
def auth_get_current_user (tok : Jwt) (db : Db) (now : Int)
    : Outcome UserRec :=
  match verify_token tok "access" now with
  | none => .httpErr 401 "Invalid or expired token"
  | some payload =>
      match payload.lookup "sub" with
      | none => .httpErr 401 "Invalid token payload"
      | some v =>
          match pyInt v with
          | .error exc => .unhandled exc
          | .ok uid =>
              match db.users.find? (fun u => (u.id : Int) == uid) with
              | none => .httpErr 401 "User not found or inactive"
              | some user =>
                  if !user.is_active then
                    .httpErr 401 "User not found or inactive"
                  else .ok user

/-! ## Concrete fixtures used to evaluate the endpoints -/

def adminFixture : UserRec :=
  ⟨1, "admin", "admin@example.com", "$2b$12$adminhash", "Admin", "admin",
    true, 0, 0⟩

def inactiveFixture : UserRec :=
  ⟨2, "carol", "carol@example.com", "$2b$12$carolhash", "Carol", "viewer",
    false, 0, 0⟩

def dbFixture : Db := ⟨[adminFixture, inactiveFixture], [], 3, 1⟩

def newUserData : UserCreateData :=
  ⟨"bob", "bob@example.com", "Bob", "viewer", true, "Abcdefg1"⟩

/-- A correctly signed, unexpired access token whose `sub` claim is a
non-numeric string. -/
def badSubToken : Jwt :=
  ⟨[("sub", .str "abc"), ("type", .str "access"), ("exp", .num 100)],
    SECRET_KEY, ALGORITHM⟩

/-- A 102-character password containing an uppercase letter, a lowercase
letter and a digit. -/
def longPwd : String := "A1" ++ String.mk (List.replicate 100 'a')

/-! ## Dictionary lemmas -/

theorem lookup_filter_ne (k k' : String) (p : Payload) (h : k ≠ k') :
    (p.filter (fun kv => kv.1 != k')).lookup k = p.lookup k := by
  induction p with
  | nil => rfl
  | cons a t ih =>
      rcases a with ⟨k1, v1⟩
      rcases eq_or_ne k1 k' with h1 | h1
      · subst h1
        have hk : (k == k1) = false := by simp [h]
        simp [List.filter_cons, List.lookup, hk, ih]
      · have h2 : (k1 != k') = true := by simp [h1]
        by_cases h3 : k = k1
        · subst h3
          simp [List.filter_cons, h2, List.lookup]
        · have hk : (k == k1) = false := by simp [h3]
          simp [List.filter_cons, h2, List.lookup, hk, ih]

theorem lookup_dictSet_self (k : String) (v : JVal) (p : Payload) :
    (dictSet k v p).lookup k = some v := by
  simp [dictSet, List.lookup]

theorem lookup_dictSet_ne (k k' : String) (v : JVal) (p : Payload)
    (h : k ≠ k') : (dictSet k' v p).lookup k = p.lookup k := by
  have hk : (k == k') = false := by simp [h]
  simp [dictSet, List.lookup, hk, lookup_filter_ne k k' p h]

/-- Any claim other than `type` and `exp` reads through the payload
constructed by the token issuers unchanged. -/
theorem lookup_issued_payload (k : String) (τ ε : JVal) (d : Payload)
    (h1 : k ≠ "type") (h2 : k ≠ "exp") :
    (dictSet "type" τ (dictSet "exp" ε d)).lookup k = d.lookup k := by
  rw [lookup_dictSet_ne k "type" τ _ h1, lookup_dictSet_ne k "exp" ε d h2]

/-! ## Decoding lemmas -/

theorem jwt_decode_eq_payload {tok : Jwt} {key : String} {algs : List String}
    {now : Int} {p : Payload} (h : jwt_decode tok key algs now = some p) :
    p = tok.payload := by
  unfold jwt_decode at h
  split at h
  · exact (Option.some_injective _ h).symm
  · exact absurd h (by simp)

theorem verify_token_type_ne (tok : Jwt) (expty : String) (t : Int) (v : JVal)
    (hp : tok.payload.lookup "type" = some v) (hne : v ≠ .str expty) :
    verify_token tok expty t = none := by
  unfold verify_token
  cases hdec : jwt_decode tok SECRET_KEY [ALGORITHM] t with
  | none => rfl
  | some p =>
      rw [jwt_decode_eq_payload hdec]
      have hb : (some v == some (JVal.str expty)) = false := by
        simp [hne]
      simp [hp, hb]

theorem create_access_token_type (d : Payload) (now : Int)
    (ed : Option Int) :
    (create_access_token d now ed).payload.lookup "type"
      = some (.str "access") := by
  simp [create_access_token, jwt_encode, lookup_dictSet_self]

theorem create_refresh_token_type (d : Payload) (now : Int) :
    (create_refresh_token d now).payload.lookup "type"
      = some (.str "refresh") := by
  simp [create_refresh_token, jwt_encode, lookup_dictSet_self]

/-- The jose claim validations that do not involve the `exp` claim (which
the issuing functions overwrite): these are the conditions a caller's
claims dict must itself satisfy for an issued token to decode. -/
def otherClaimsOk (d : Payload) (t : Int) : Bool :=
  validate_iat d && validate_nbf d t && validate_aud d &&
    validate_sub d && validate_jti d && validate_at_hash d

theorem validate_iat_issued (τ ε : JVal) (d : Payload) :
    validate_iat (dictSet "type" τ (dictSet "exp" ε d)) = validate_iat d := by
  unfold validate_iat
  rw [lookup_issued_payload "iat" τ ε d (by decide) (by decide)]

theorem validate_nbf_issued (τ ε : JVal) (d : Payload) (t : Int) :
    validate_nbf (dictSet "type" τ (dictSet "exp" ε d)) t
      = validate_nbf d t := by
  unfold validate_nbf
  rw [lookup_issued_payload "nbf" τ ε d (by decide) (by decide)]

theorem validate_aud_issued (τ ε : JVal) (d : Payload) :
    validate_aud (dictSet "type" τ (dictSet "exp" ε d)) = validate_aud d := by
  unfold validate_aud
  rw [lookup_issued_payload "aud" τ ε d (by decide) (by decide)]

theorem validate_sub_issued (τ ε : JVal) (d : Payload) :
    validate_sub (dictSet "type" τ (dictSet "exp" ε d)) = validate_sub d := by
  unfold validate_sub
  rw [lookup_issued_payload "sub" τ ε d (by decide) (by decide)]

theorem validate_jti_issued (τ ε : JVal) (d : Payload) :
    validate_jti (dictSet "type" τ (dictSet "exp" ε d)) = validate_jti d := by
  unfold validate_jti
  rw [lookup_issued_payload "jti" τ ε d (by decide) (by decide)]

theorem validate_at_hash_issued (τ ε : JVal) (d : Payload) :
    validate_at_hash (dictSet "type" τ (dictSet "exp" ε d))
      = validate_at_hash d := by
  unfold validate_at_hash
  rw [lookup_issued_payload "at_hash" τ ε d (by decide) (by decide)]

theorem validate_exp_issued (τ : JVal) (ε : Int) (d : Payload) (t : Int) :
    validate_exp (dictSet "type" τ (dictSet "exp" (.num ε) d)) t
      = !(ε < t) := by
  have hl : (dictSet "type" τ (dictSet "exp" (.num ε) d)).lookup "exp"
      = some (.num ε) := by
    rw [lookup_dictSet_ne "exp" "type" τ _ (by decide),
      lookup_dictSet_self]
  unfold validate_exp
  rw [hl]
  simp [pyInt]

/-- A token signed with the process key verifies against its own type
whenever the caller-independent claims are acceptable and the expiry has
not passed, yielding the full issued payload. -/
theorem verify_issued_token (τ : String) (ε : Int) (d : Payload) (t : Int)
    (hother : otherClaimsOk d t = true) (hexp : ¬ (ε < t)) :
    verify_token
      (jwt_encode (dictSet "type" (.str τ) (dictSet "exp" (.num ε) d))
        SECRET_KEY ALGORITHM) τ t
      = some (dictSet "type" (.str τ) (dictSet "exp" (.num ε) d)) := by
  simp only [otherClaimsOk, Bool.and_eq_true] at hother
  obtain ⟨⟨⟨⟨⟨h1, h2⟩, h3⟩, h4⟩, h5⟩, h6⟩ := hother
  have hcv : claimsValid
      (dictSet "type" (.str τ) (dictSet "exp" (.num ε) d)) t = true := by
    unfold claimsValid
    rw [validate_iat_issued, validate_nbf_issued, validate_exp_issued,
      validate_aud_issued, validate_sub_issued, validate_jti_issued,
      validate_at_hash_issued, h1, h2, h3, h4, h5, h6]
    simp [hexp]
  have hdec : jwt_decode
      (jwt_encode (dictSet "type" (.str τ) (dictSet "exp" (.num ε) d))
        SECRET_KEY ALGORITHM) SECRET_KEY [ALGORITHM] t
      = some (dictSet "type" (.str τ) (dictSet "exp" (.num ε) d)) := by
    simp [jwt_decode, jwt_encode, hcv]
  unfold verify_token
  rw [hdec]
  simp [lookup_dictSet_self]

/-! ## Claim theorems -/

/-- C2: cross-type rejection is total — a token issued by
`create_refresh_token` is rejected by `verify_token` with expected type
`access`, and a token issued by `create_access_token` is rejected with
expected type `refresh`, for every claims dict, issue time, expiry delta
and verification time. -/
theorem cross_type_rejection_total (d : Payload) (now t : Int)
    (ed : Option Int) :
    verify_token (create_refresh_token d now) "access" t = none ∧
    verify_token (create_access_token d now ed) "refresh" t = none := by
  constructor
  · exact verify_token_type_ne _ _ _ _ (create_refresh_token_type d now)
      (by simp)
  · exact verify_token_type_ne _ _ _ _ (create_access_token_type d now ed)
      (by simp)

/-- C3: a token whose `exp` claim instant has passed is rejected by
`verify_token` for every expected type — even when its signature and
algorithm are correct and its `type` claim matches — with no grace
window. -/
theorem expired_token_rejected (tok : Jwt) (ty : String) (t e : Int)
    (v : JVal) (hexp : tok.payload.lookup "exp" = some v)
    (hint : pyInt v = .ok e) (hlt : e < t) :
    verify_token tok ty t = none := by
  unfold verify_token
  suffices h : jwt_decode tok SECRET_KEY [ALGORITHM] t = none by rw [h]
  have hv : validate_exp tok.payload t = false := by
    unfold validate_exp
    rw [hexp]
    simp [hint, hlt]
  simp [jwt_decode, claimsValid, hv]

/-- Witness for C3: a concrete correctly-signed access token with
`exp = 5` is rejected at time 10. -/
theorem expired_token_rejected_witness :
    (Jwt.mk [("exp", .num 5), ("type", .str "access")] SECRET_KEY ALGORITHM
        ).payload.lookup "exp" = some (.num 5) ∧
    pyInt (.num 5) = .ok 5 ∧ (5 : Int) < 10 ∧
    verify_token
      (Jwt.mk [("exp", .num 5), ("type", .str "access")] SECRET_KEY ALGORITHM)
      "access" 10 = none :=
  ⟨rfl, rfl, by decide,
    expired_token_rejected
      (Jwt.mk [("exp", .num 5), ("type", .str "access")] SECRET_KEY ALGORITHM)
      "access" 10 5 (.num 5) rfl rfl (by decide)⟩

/-- C9 (counterexample): the round-trip clause fails as stated. For the
claims dict `{"sub": 5}` the issued access token does not verify at all
(python-jose rejects a non-string `sub` claim during decode), so
verification yields no claims rather than the dict's claims, well before
expiry. -/
theorem round_trip_fails_on_nonstring_sub :
    verify_token (create_access_token [("sub", .num 5)] 0 none) "access" 0
      = none := by
  decide

/-- C9 (amended): a token issued by `create_access_token` is never accepted
with expected type `refresh` and vice versa; the issuing function alone
determines the token's `type` and `exp`, overriding any caller-supplied
entries; and for every claims dict whose own registered claims pass
jose's validations (`sub`/`jti` strings if present, no `aud`/`at_hash`,
numeric `iat`, numeric non-future `nbf`), verification with the matching
type before expiry succeeds and yields exactly the caller's claims plus
the issuer's `type` and `exp`. -/
theorem issuing_function_determines_token_kind (d : Payload) (now t : Int)
    (ed : Option Int) :
    verify_token (create_access_token d now ed) "refresh" t = none ∧
    verify_token (create_refresh_token d now) "access" t = none ∧
    (create_access_token d now none).payload
      = dictSet "type" (.str "access") (dictSet "exp" (.num (now + 1800)) d) ∧
    (create_refresh_token d now).payload
      = dictSet "type" (.str "refresh") (dictSet "exp" (.num (now + 604800)) d) ∧
    (otherClaimsOk d t = true → ¬ (now + 1800 < t) →
      verify_token (create_access_token d now none) "access" t
        = some (dictSet "type" (.str "access")
            (dictSet "exp" (.num (now + 1800)) d))) ∧
    (otherClaimsOk d t = true → ¬ (now + 604800 < t) →
      verify_token (create_refresh_token d now) "refresh" t
        = some (dictSet "type" (.str "refresh")
            (dictSet "exp" (.num (now + 604800)) d))) ∧
    (∀ k : String, k ≠ "type" → k ≠ "exp" →
      (dictSet "type" (.str "access")
        (dictSet "exp" (.num (now + 1800)) d)).lookup k = d.lookup k) := by
  refine ⟨?_, ?_, ?_, ?_, ?_, ?_, ?_⟩
  · exact verify_token_type_ne _ _ _ _ (create_access_token_type d now ed)
      (by simp)
  · exact verify_token_type_ne _ _ _ _ (create_refresh_token_type d now)
      (by simp)
  · show dictSet "type" (.str "access")
        (dictSet "exp" (.num (now + 60 * 30)) d) = _
    norm_num
  · show dictSet "type" (.str "refresh")
        (dictSet "exp" (.num (now + 86400 * 7)) d) = _
    norm_num
  · intro ho he
    have h30 : now + 60 * 30 = now + 1800 := by norm_num
    have : create_access_token d now none
        = jwt_encode (dictSet "type" (.str "access")
            (dictSet "exp" (.num (now + 1800)) d)) SECRET_KEY ALGORITHM := by
      unfold create_access_token ACCESS_TOKEN_EXPIRE_MINUTES
      rw [h30]
    rw [this]
    exact verify_issued_token "access" (now + 1800) d t ho he
  · intro ho he
    have h7 : now + 86400 * 7 = now + 604800 := by norm_num
    have : create_refresh_token d now
        = jwt_encode (dictSet "type" (.str "refresh")
            (dictSet "exp" (.num (now + 604800)) d)) SECRET_KEY ALGORITHM := by
      unfold create_refresh_token REFRESH_TOKEN_EXPIRE_DAYS
      rw [h7]
    rw [this]
    exact verify_issued_token "refresh" (now + 604800) d t ho he
  · intro k h1 h2
    exact lookup_issued_payload k _ _ d h1 h2

/-- Witness for C9 (amended): the claims dict `{"sub": "7"}` at issue time 0
satisfies the side conditions and round-trips through an access token. -/
theorem issuing_function_determines_token_kind_witness :
    otherClaimsOk [("sub", .str "7")] 0 = true ∧
    ¬ ((0 : Int) + 1800 < 0) ∧
    verify_token (create_access_token [("sub", .str "7")] 0 none) "access" 0
      = some (dictSet "type" (.str "access")
          (dictSet "exp" (.num (0 + 1800)) [("sub", .str "7")])) :=
  ⟨by decide, by decide,
    ((issuing_function_determines_token_kind [("sub", .str "7")] 0 0
      none).2.2.2.2.1) (by decide) (by decide)⟩

/-- C4: every failing login attempt — unknown username, inactive account,
or wrong password against a well-formed stored digest — returns the same
401 with the same generic detail and leaves the database (hence the
response body across repeated attempts) unchanged: no output
distinguishes which check failed. -/
theorem login_failure_uniform (bcryptEq : String → String → Bool) (db : Db)
    (req : LoginRequest) (now : Int) (ip ua : Option String) :
    (db.users.find? (fun x => x.username == req.username) = none →
      login bcryptEq db req now ip ua
        = (.httpErr 401 "Incorrect username or password", db)) ∧
    (∀ u, db.users.find? (fun x => x.username == req.username) = some u →
      u.is_active = false →
      login bcryptEq db req now ip ua
        = (.httpErr 401 "Incorrect username or password", db)) ∧
    (∀ u, db.users.find? (fun x => x.username == req.username) = some u →
      u.is_active = true → bcryptIdentify u.password_hash = true →
      bcryptEq req.password u.password_hash = false →
      login bcryptEq db req now ip ua
        = (.httpErr 401 "Incorrect username or password", db)) := by
  refine ⟨?_, ?_, ?_⟩
  · intro hfind
    simp [login, hfind]
  · intro u hfind hact
    simp [login, hfind, hact]
  · intro u hfind hact hid hbc
    simp [login, hfind, hact, verify_password, hid, hbc]

/-- Witness for C4: on the fixture database, an unknown username, the
inactive user `carol`, and a wrong password for the active `admin` all
produce the identical generic 401 and leave the database untouched. -/
theorem login_failure_uniform_witness :
    login (fun _ _ => false) dbFixture ⟨"nobody", "pw"⟩ 0 none none
      = (.httpErr 401 "Incorrect username or password", dbFixture) ∧
    login (fun _ _ => false) dbFixture ⟨"carol", "pw"⟩ 0 none none
      = (.httpErr 401 "Incorrect username or password", dbFixture) ∧
    login (fun _ _ => false) dbFixture ⟨"admin", "wrong"⟩ 0 none none
      = (.httpErr 401 "Incorrect username or password", dbFixture) :=
  ⟨(login_failure_uniform (fun _ _ => false) dbFixture ⟨"nobody", "pw"⟩ 0
      none none).1 (by decide),
    (login_failure_uniform (fun _ _ => false) dbFixture ⟨"carol", "pw"⟩ 0
      none none).2.1 inactiveFixture (by decide) (by decide),
    (login_failure_uniform (fun _ _ => false) dbFixture ⟨"admin", "wrong"⟩ 0
      none none).2.2 adminFixture (by decide) (by decide) (by decide)
      (by decide)⟩

/-- C5: for every `(username, password)` pair matching an active identity,
login succeeds and returns `expires_in = 1800`, a bearer token type, an
access token carrying `exp = now + 1800` (30 minutes) that verifies with
expected type `access`, and a refresh token carrying
`exp = now + 604800` (7 days) that verifies with expected type
`refresh`. -/
theorem login_success_tokens (bcryptEq : String → String → Bool) (db : Db)
    (req : LoginRequest) (now : Int) (ip ua : Option String) (u : UserRec)
    (hfind : db.users.find? (fun x => x.username == req.username) = some u)
    (hact : u.is_active = true)
    (hpw : verify_password bcryptEq req.password u.password_hash = .ok true) :
    ∃ resp db1, login bcryptEq db req now ip ua = (.ok resp, db1) ∧
      resp.expires_in = 1800 ∧
      resp.token_type = "bearer" ∧
      resp.access_token.payload.lookup "exp" = some (.num (now + 1800)) ∧
      resp.refresh_token.payload.lookup "exp" = some (.num (now + 604800)) ∧
      verify_token resp.access_token "access" now
        = some resp.access_token.payload ∧
      verify_token resp.refresh_token "refresh" now
        = some resp.refresh_token.payload := by
  have h30 : now + 60 * 30 = now + 1800 := by norm_num
  have h7 : now + 86400 * 7 = now + 604800 := by norm_num
  have hok : otherClaimsOk
      [("sub", .str (toString u.id)), ("username", .str u.username)] now
      = true := rfl
  have hacc : create_access_token
      [("sub", .str (toString u.id)), ("username", .str u.username)] now none
      = jwt_encode (dictSet "type" (.str "access")
          (dictSet "exp" (.num (now + 1800))
            [("sub", .str (toString u.id)),
              ("username", .str u.username)])) SECRET_KEY ALGORITHM := by
    unfold create_access_token ACCESS_TOKEN_EXPIRE_MINUTES
    rw [h30]
  have href : create_refresh_token
      [("sub", .str (toString u.id)), ("username", .str u.username)] now
      = jwt_encode (dictSet "type" (.str "refresh")
          (dictSet "exp" (.num (now + 604800))
            [("sub", .str (toString u.id)),
              ("username", .str u.username)])) SECRET_KEY ALGORITHM := by
    unfold create_refresh_token REFRESH_TOKEN_EXPIRE_DAYS
    rw [h7]
  refine ⟨⟨create_access_token
      [("sub", .str (toString u.id)), ("username", .str u.username)] now none,
    create_refresh_token
      [("sub", .str (toString u.id)), ("username", .str u.username)] now,
    "bearer", 30 * 60, u⟩,
    { db with
        audits := db.audits ++
          [⟨db.nextAuditId, u.id, "LOGIN", "users", some u.id, none, none,
            ip, ua, now⟩],
        nextAuditId := db.nextAuditId + 1 },
    by simp [login, hfind, hact, hpw, log_action], by norm_num, rfl, ?_, ?_,
    ?_, ?_⟩
  · rw [hacc]
    show (dictSet "type" (.str "access") _).lookup "exp" = _
    rw [lookup_dictSet_ne "exp" "type" _ _ (by decide), lookup_dictSet_self]
  · rw [href]
    show (dictSet "type" (.str "refresh") _).lookup "exp" = _
    rw [lookup_dictSet_ne "exp" "type" _ _ (by decide), lookup_dictSet_self]
  · rw [hacc]
    exact verify_issued_token "access" (now + 1800) _ now hok (by omega)
  · rw [href]
    exact verify_issued_token "refresh" (now + 604800) _ now hok (by omega)

/-- Witness for C5: a successful login of the active `admin` fixture. -/
theorem login_success_tokens_witness :
    ∃ resp db1,
      login (fun _ _ => true) dbFixture ⟨"admin", "pw"⟩ 0 none none
        = (.ok resp, db1) ∧
      resp.expires_in = 1800 ∧
      resp.token_type = "bearer" ∧
      resp.access_token.payload.lookup "exp" = some (.num (0 + 1800)) ∧
      resp.refresh_token.payload.lookup "exp" = some (.num (0 + 604800)) ∧
      verify_token resp.access_token "access" 0
        = some resp.access_token.payload ∧
      verify_token resp.refresh_token "refresh" 0
        = some resp.refresh_token.payload :=
  login_success_tokens (fun _ _ => true) dbFixture ⟨"admin", "pw"⟩ 0 none
    none adminFixture (by decide) (by decide) rfl

/-- C6 (counterexample): an admin deleting their own id is rejected with
status 400 (the spec taxonomy's ValidationError), not with a 403
ForbiddenError as the claim states. -/
theorem self_delete_status_counterexample :
    delete_user dbFixture adminFixture 1
      = (.httpErr 400 "Cannot delete your own account", dbFixture) ∧
    (delete_user dbFixture adminFixture 1).1
      ≠ .httpErr 403 "Cannot delete your own account" := by
  refine ⟨rfl, ?_⟩
  rw [show (delete_user dbFixture adminFixture 1).1
      = Outcome.httpErr 400 "Cannot delete your own account" from rfl]
  simp

/-- C6 (amended): for every admin caller, deleting the caller's own id is
rejected with a 400 `Cannot delete your own account` response and the
database — audit log included — is unchanged. -/
theorem self_delete_rejected_validation (db : Db) (caller : UserRec)
    (h : caller.role = "admin") :
    delete_user db caller caller.id
      = (.httpErr 400 "Cannot delete your own account", db) := by
  unfold delete_user
  simp [h]

/-- Witness for C6 (amended): the admin fixture deleting id 1. -/
theorem self_delete_rejected_validation_witness :
    adminFixture.role = "admin" ∧
    delete_user dbFixture adminFixture adminFixture.id
      = (.httpErr 400 "Cannot delete your own account", dbFixture) :=
  ⟨rfl, self_delete_rejected_validation dbFixture adminFixture rfl⟩

/-- C7 (counterexample): a 102-character password with an uppercase
letter, a lowercase letter and a digit is in the claim's acceptance set
(length at least 8, all three character classes) but is rejected by the
schema, whose `Field` bound also caps the length at 100. -/
theorem password_policy_counterexample :
    8 ≤ longPwd.length ∧ longPwd.data.any Char.isUpper = true ∧
    longPwd.data.any Char.isLower = true ∧
    longPwd.data.any Char.isDigit = true ∧
    userCreatePasswordAccepted longPwd = false := by
  decide

/-- C7 (amended): the schema accepts exactly the passwords of length
between 8 and 100 that contain at least one uppercase letter, one
lowercase letter and one digit; in particular `Abcdefg1` is accepted
while `abcdefgh` and `short1A` are rejected. -/
theorem password_policy_characterised (v : String) :
    (userCreatePasswordAccepted v = true ↔
      8 ≤ v.length ∧ v.length ≤ 100 ∧ v.data.any Char.isUpper = true ∧
        v.data.any Char.isLower = true ∧ v.data.any Char.isDigit = true) ∧
    userCreatePasswordAccepted "Abcdefg1" = true ∧
    userCreatePasswordAccepted "abcdefgh" = false ∧
    userCreatePasswordAccepted "short1A" = false := by
  refine ⟨?_, by decide, by decide, by decide⟩
  unfold userCreatePasswordAccepted validate_password
  by_cases h1 : v.length < 8 <;>
    by_cases h2 : v.data.any Char.isUpper = true <;>
    by_cases h3 : v.data.any Char.isLower = true <;>
    by_cases h4 : v.data.any Char.isDigit = true <;>
    simp [h1, h2, h3, h4, Except.toBool]

/-- C8 (counterexample): on a digest that is not a hash of the configured
scheme, `verify_password` propagates passlib's `UnknownHashError`
instead of returning `false`. -/
theorem verify_password_raises_counterexample :
    verify_password (fun _ _ => false) "password123" "notahash"
      = .error "UnknownHashError" ∧
    verify_password (fun _ _ => false) "password123" "notahash"
      ≠ .ok false := by
  refine ⟨rfl, ?_⟩
  rw [show verify_password (fun _ _ => false) "password123" "notahash"
      = Except.error "UnknownHashError" from rfl]
  simp

/-- C8 (amended): for every password and digest, `verify_password` returns
the bcrypt comparison when the digest is identifiable as bcrypt, and
raises (propagates) `UnknownHashError` — rather than returning `false` —
whenever it is not. -/
theorem verify_password_total_behaviour (bcryptEq : String → String → Bool)
    (p d : String) :
    (bcryptIdentify d = false →
      verify_password bcryptEq p d = .error "UnknownHashError") ∧
    (bcryptIdentify d = true →
      verify_password bcryptEq p d = .ok (bcryptEq p d)) := by
  unfold verify_password
  constructor <;> intro h <;> simp [h]

/-- Witness for C8 (amended): a malformed digest raises, a bcrypt-prefixed
digest returns the comparison result. -/
theorem verify_password_total_behaviour_witness :
    bcryptIdentify "notahash" = false ∧
    verify_password (fun _ _ => true) "pw" "notahash"
      = .error "UnknownHashError" ∧
    bcryptIdentify "$2b$12$adminhash" = true ∧
    verify_password (fun _ _ => true) "pw" "$2b$12$adminhash" = .ok true :=
  ⟨by decide,
    (verify_password_total_behaviour (fun _ _ => true) "pw" "notahash").1
      (by decide),
    by decide,
    (verify_password_total_behaviour (fun _ _ => true) "pw"
      "$2b$12$adminhash").2 (by decide)⟩

/-- C1 (failing run): a valid admin `create_user` request commits the new
user row and then fails with the 500 produced by the `AttributeError`
raised while building the audit payload (`new_user.role.value` on a
plain string column): the CREATE mutation is durably committed, the
response is an error, and no `AuditRecord` at all is written — not the
exactly-one matching record the claim requires. -/
theorem create_user_commits_mutation_without_audit :
    (create_user (fun _ => "$2b$12$bobhash") dbFixture adminFixture
        newUserData 5).1
      = .httpErr 500
          "Error creating user: AttributeError: str object has no attribute value" ∧
    (create_user (fun _ => "$2b$12$bobhash") dbFixture adminFixture
        newUserData 5).2.users
      = dbFixture.users ++
        [⟨3, "bob", "bob@example.com", "$2b$12$bobhash", "Bob", "viewer",
          true, 5, 5⟩] ∧
    (create_user (fun _ => "$2b$12$bobhash") dbFixture adminFixture
        newUserData 5).2.audits = [] :=
  ⟨rfl, rfl, rfl⟩

/-- C10 (counterexample): on a correctly signed access token whose `sub`
claim is the non-numeric string `abc`, the two `get_current_user`
implementations disagree: the one in `core/security.py` returns the
generic 401, while the one in `routers/auth.py` lets the `int(...)`
`ValueError` escape unhandled. -/
theorem get_current_user_implementations_differ :
    security_get_current_user badSubToken dbFixture 0
      = .httpErr 401 "Could not validate credentials" ∧
    auth_get_current_user badSubToken dbFixture 0 = .unhandled "ValueError" ∧
    security_get_current_user badSubToken dbFixture 0
      ≠ auth_get_current_user badSubToken dbFixture 0 := by
  refine ⟨rfl, rfl, ?_⟩
  rw [show security_get_current_user badSubToken dbFixture 0
      = Outcome.httpErr 401 "Could not validate credentials" from rfl,
    show auth_get_current_user badSubToken dbFixture 0
      = Outcome.unhandled "ValueError" from rfl]
  simp

/-- C10 (amended): the two `get_current_user` implementations accept
exactly the same tokens against the same database state and return the
same user on success; on every failure the `core/security.py` version
collapses the outcome (including its own `Inactive user` branch) to the
one generic 401, whereas the `routers/auth.py` version reports distinct
details and can fail unhandled. -/
theorem get_current_user_success_equivalence (tok : Jwt) (db : Db)
    (now : Int) :
    (∀ u, security_get_current_user tok db now = .ok u ↔
      auth_get_current_user tok db now = .ok u) ∧
    ((security_get_current_user tok db now).isOk = false →
      security_get_current_user tok db now
        = .httpErr 401 "Could not validate credentials") := by
  unfold security_get_current_user security_get_current_user_body
    auth_get_current_user
  cases hv : verify_token tok "access" now with
  | none => simp [Outcome.isOk]
  | some payload =>
      cases hs : payload.lookup "sub" with
      | none => simp [Outcome.isOk, hs]
      | some v =>
          cases hi : pyInt v with
          | error e => simp [Outcome.isOk, hs, hi]
          | ok uid =>
              cases hf : db.users.find? (fun u => (u.id : Int) == uid) with
              | none => simp [Outcome.isOk, hs, hi, hf]
              | some user =>
                  cases hb : user.is_active <;>
                    simp [Outcome.isOk, hs, hi, hf, hb]

/-- Witness for C10 (amended): the generic-401 clause evaluated on the
non-numeric-`sub` token against the fixture database. -/
theorem get_current_user_success_equivalence_witness :
    security_get_current_user badSubToken dbFixture 0
      = .httpErr 401 "Could not validate credentials" :=
  (get_current_user_success_equivalence badSubToken dbFixture 0).2
    (by decide)

end CashSchool
